import Mathlib

/-!
# Verification of the Pymon game core (`pymon_game.py`)

A shallow embedding of the game's data model and operations.  Python objects
live on explicit heaps: `GameState.pymons` and `GameState.locations` are lists
indexed by numeric ids, so reference aliasing (a creature list holding a Pymon
that is also the session's active Pymon, a pet list containing the pymon that
owns it) is represented by shared indices, exactly as CPython shares object
references.  Python dicts whose keys matter (`Location.doors`,
`BattleStats.battles`) are association lists with first-match update, which
matches dict semantics as long as keys are unique — and insertion through
these operations keeps them unique.  `random.choice`, `input()` and the
interactive round loop are parametrised by explicit streams; the round loop is
fuel-indexed, `none` meaning the fuel ran out while the loop was still
running.
-/

namespace PymonGame

/-- `Item.__init__`: name, description, pickable flag, consumable flag. -/
structure Item where
  name : String
  description : String
  pickable : Bool
  consumable : Bool
deriving DecidableEq, Repr

/-- One record of `BattleStats.add_battle` (the timestamp is not modelled:
no claim mentions it and it never feeds back into game logic). -/
structure BattleRec where
  opponent : String
  wins : Nat
  draws : Nat
  losses : Nat
deriving DecidableEq, Repr

/-- A reference held in a `Location.creatures` list: either a wild `Creature`
(index into `GameState.wilds`) or a `Pymon` object (index into
`GameState.pymons`). -/
inductive CreatureRef where
  | wild (id : Nat)
  | pymon (id : Nat)
deriving DecidableEq, Repr

/-- `Location.__init__`: the `doors` dict is created with the four keys
`west`, `north`, `east`, `south` in insertion order; `connect` can add
further keys.  Door values are location ids (`none` models Python `None`). -/
structure LocationR where
  name : String
  description : String
  doors : List (String × Option Nat)
  creatures : List CreatureRef
  items : List Item
deriving DecidableEq, Repr

/-- A wild (non-player) `Creature`: nickname, description, adoptable flag and
the `location` attribute (set once at spawn). -/
structure CreatureR where
  nickname : String
  description : String
  adoptable : Bool
  location : Option Nat
deriving DecidableEq, Repr

/-- `Pymon.__init__` state: energy starts at 3, empty inventory, empty pet
list, move counter 0, no immunity, fresh `BattleStats`.  `pets` holds pymon
ids (Python stores object references).  `battle_stats` is the
`BattleStats.battles` dict: nickname ↦ list of records. -/
structure PymonR where
  nickname : String
  description : String
  energy : Int
  inventory : List Item
  pets : List Nat
  track_moves : Nat
  current_location : Option Nat
  immunity : Bool
  battle_stats : List (String × List BattleRec)
deriving DecidableEq, Repr

/-- The whole mutable game state reachable from an `Operation` object:
the location heap, the pymon heap, the wild creatures, and
`Operation.current_pymon` as an id into the pymon heap. -/
structure GameState where
  locations : List LocationR
  pymons : List PymonR
  wilds : List CreatureR
  currentId : Nat
deriving DecidableEq, Repr

/-- `Pymon.enery_max` (sic) from the source. -/
def enery_max : Int := 3

/-- Placeholder pymon for out-of-range heap reads (never hit on the states the
theorems quantify over, which carry `currentId < pymons.length`). -/
def dfltPymon : PymonR :=
  ⟨"The player", "Default Pymon character", 3, [], [], 0, none, false, []⟩

/-- Placeholder location for out-of-range heap reads. -/
def dfltLoc : LocationR := ⟨"New room", "", [], [], []⟩

/-- Placeholder wild creature for out-of-range heap reads. -/
def dfltWild : CreatureR := ⟨"", "", false, none⟩

/-- The four door keys `Location.__init__` installs, in insertion order. -/
def defaultDoors : List (String × Option Nat) :=
  [("west", none), ("north", none), ("east", none), ("south", none)]

/-- The list `["west", "north", "east", "south"]` that `Pymon.move` checks
membership in. -/
def dirs : List String := ["west", "north", "east", "south"]

/-- Python dict read `d[k]` / `k in d` combined: `some v` when the key is
present with value `v`, `none` when absent. -/
def dictGet : List (String × Option Nat) → String → Option (Option Nat)
  | [], _ => none
  | e :: rest, k => if e.1 = k then some e.2 else dictGet rest k

/-- Python dict write `d[k] = v`: update the (unique) existing entry in
place, else append a new entry, as dict insertion order does. -/
def dictSet : List (String × Option Nat) → String → Option Nat →
    List (String × Option Nat)
  | [], k, v => [(k, v)]
  | e :: rest, k, v => if e.1 = k then (k, v) :: rest else e :: dictSet rest k v

/-- The active Pymon object (`Operation.current_pymon`). -/
def curPymon (s : GameState) : PymonR := s.pymons.getD s.currentId dfltPymon

/-- Write back the active Pymon object after mutating it. -/
def setCur (s : GameState) (p : PymonR) : GameState :=
  { s with pymons := s.pymons.set s.currentId p }

/-- The active Pymon's current location object. -/
def curLoc (s : GameState) : LocationR :=
  match (curPymon s).current_location with
  | none => dfltLoc
  | some lid => s.locations.getD lid dfltLoc

/-- `Location.connect`'s `opposite_directions` dict, read at one key. -/
def lookupOpp (direction : String) : Option String :=
  if direction = "west" then some "east"
  else if direction = "east" then some "west"
  else if direction = "north" then some "south"
  else if direction = "south" then some "north"
  else none

/-- `Location.connect(direction, another_room)`, on the location heap with
`a` the receiver and `b` the argument.  It unconditionally writes
`self.doors[direction] = another_room`, then, only when the direction has an
opposite, writes the reciprocal slot.  Nothing is validated and no exception
can be raised. -/
def connect (locs : List LocationR) (a : Nat) (direction : String) (b : Nat) :
    List LocationR :=
  let la := locs.getD a dfltLoc
  let locs1 := locs.set a { la with doors := dictSet la.doors direction (some b) }
  match lookupOpp direction with
  | some opp =>
      let lb := locs1.getD b dfltLoc
      locs1.set b { lb with doors := dictSet lb.doors opp (some a) }
  | none => locs1

/-- `BattleStats.add_battle(pymon_name, opponent, wins, draws, losses)`:
ensure the key exists, then append the record to its list. -/
def addBattle : List (String × List BattleRec) → String → BattleRec →
    List (String × List BattleRec)
  | [], name, r => [(name, [r])]
  | e :: rest, name, r =>
      if e.1 = name then (e.1, e.2 ++ [r]) :: rest
      else e :: addBattle rest name r

/-- Total number of battle records in a `BattleStats` ledger. -/
def recCount (bs : List (String × List BattleRec)) : Nat :=
  (bs.map (fun e => e.2.length)).sum

/-! ## Movement (`Pymon.move`, `Pymon.random_escape`) -/

/-- `random.choice(seq)` evaluates `seq[randbelow(len(seq))]`.
`Pymon.random_escape` passes it `self.current_location.doors.values()`, a
`dict_values` view, which does not support subscripting, so the call raises
`TypeError` for every dict — before any state is changed. -/
def choiceOnDictValues (_d : List (String × Option Nat)) :
    Except String (Option Nat) :=
  .error "TypeError: dict_values object is not subscriptable"

/-- `Pymon.random_escape`: its first statement is
`random.choice(self.current_location.doors.values())`, which always raises
`TypeError` (see `choiceOnDictValues`); the removal from the creature list and
the relocation on the following lines are unreachable. -/
def random_escape (s : GameState) : Except String GameState := do
  let _ ← choiceOnDictValues (curLoc s).doors
  pure s

/-- Outcome of one `Pymon.move` call.  `invalidDirection` covers both raise
sites (direction not cardinal; door key absent or holding `None`) — the
exception is caught inside `move` itself and only printed.  `noLocation` is
the silent fall-through when `current_location is None`.  `escapeError` is the
`TypeError` escaping from `random_escape` (it propagates out of `move`, whose
handler only catches `InvalidDirectionException`, and is swallowed by the
caller `Operation.move_pymon`); the move's own mutations have already
happened at that point. -/
inductive MoveRes where
  | ok
  | invalidDirection
  | noLocation
  | escapeError
deriving DecidableEq, Repr

/-- The creature-list bookkeeping of a successful move (lines 201–204):
remove `self` from the old location's list (first occurrence, if present)
and append it to the new location's list. -/
def moveLocs (s : GameState) (lid nid : Nat) : List LocationR :=
  let loc := s.locations.getD lid dfltLoc
  let locs1 := s.locations.set lid
    { loc with creatures := loc.creatures.erase (.pymon s.currentId) }
  let nloc := locs1.getD nid dfltLoc
  locs1.set nid
    { nloc with creatures := nloc.creatures ++ [.pymon s.currentId] }

/-- The body of `Pymon.move` once the destination `nid` behind the door has
been resolved: creature lists updated, `current_location` set, `track_moves`
bumped; every time the counter reaches 2 it resets and energy drops by 1,
and if energy is then ≤ 0, `random_escape` is attempted (and always raises,
see `random_escape`). -/
def moveSuccess (s : GameState) (lid nid : Nat) : GameState × MoveRes :=
  let p := curPymon s
  let locs2 := moveLocs s lid nid
  if p.track_moves + 1 ≥ 2 then
    let p' := { p with current_location := some nid, track_moves := 0,
                       energy := p.energy - 1 }
    let s' := { s with locations := locs2,
                       pymons := s.pymons.set s.currentId p' }
    if p'.energy ≤ 0 then
      match random_escape s' with
      | .error _ => (s', .escapeError)
      | .ok s'' => (s'', .ok)
    else (s', .ok)
  else
    let p' := { p with current_location := some nid,
                       track_moves := p.track_moves + 1 }
    ({ s with locations := locs2,
              pymons := s.pymons.set s.currentId p' }, .ok)

/-- `Pymon.move(direction)`: direction check, door lookup, then the
successful-move body `moveSuccess`. -/
def move (s : GameState) (direction : String) : GameState × MoveRes :=
  if direction ∈ dirs then
    match (curPymon s).current_location with
    | none => (s, .noLocation)
    | some lid =>
      match dictGet (s.locations.getD lid dfltLoc).doors direction with
      | some (some nid) => moveSuccess s lid nid
      | _ => (s, .invalidDirection)
  else (s, .invalidDirection)

/-- Run a list of `move` calls, also counting the successful ones (those
where the guarded movement block executed, i.e. result `ok` or
`escapeError`). -/
def moveSeq : GameState → List String → GameState × Nat
  | s, [] => (s, 0)
  | s, d :: ds =>
      let r := move s d
      let rest := moveSeq r.1 ds
      (rest.1, (if r.2 = .ok ∨ r.2 = .escapeError then 1 else 0) + rest.2)

/-! ## The battle round loop (`Pymon.Challenge`, lines 353–377) -/

/-- A rock-paper-scissors symbol. -/
inductive RPS where
  | rock
  | paper
  | scissors
deriving DecidableEq, Repr

/-- ASCII lower-casing of one character, as Python `str.lower` does on the
ASCII range (the only range that can produce `"rock"`, `"paper"` or
`"scissors"`, the sole strings the round loop inspects). -/
def lowerChar (c : Char) : Char :=
  if 'A' ≤ c ∧ c ≤ 'Z' then Char.ofNat (c.toNat + 32) else c

/-- Python `str.lower()` applied to the raw `input()` string. -/
def pyLower (x : String) : String := ⟨x.data.map lowerChar⟩

/-- The validity check `player_turn not in ["rock", "paper", "scissors"]`
applied to the (already lower-cased) player input. -/
def parseRPS (x : String) : Option RPS :=
  if x = "rock" then some .rock
  else if x = "paper" then some .paper
  else if x = "scissors" then some .scissors
  else none

/-- The win condition of lines 368–370: `a` beats `b`. -/
def beats : RPS → RPS → Bool
  | .rock, .scissors => true
  | .scissors, .paper => true
  | .paper, .rock => true
  | _, _ => false

/-- The loop-local state of the round loop: the three tallies, the
challenger's energy, and read positions into the player-input stream
(`iidx`, advanced every iteration) and the opponent's random stream (`ridx`,
advanced only when the player's input was valid — invalid input `continue`s
before `random.choice` runs). -/
structure LoopSt where
  win : Nat
  draw : Nat
  loss : Nat
  energy : Int
  iidx : Nat
  ridx : Nat
deriving DecidableEq, Repr

/-- The `while` guard: `win < 2 and loss < 2 and self.energy > 0`. -/
def live (s : LoopSt) : Prop := s.win < 2 ∧ s.loss < 2 ∧ 0 < s.energy

instance (s : LoopSt) : Decidable (live s) := by
  unfold live; infer_instance

/-- One iteration of the round loop body (executed only under the guard):
invalid input re-prompts; a tie counts a draw; a winning throw counts a win;
a losing throw counts a loss and costs 1 energy. -/
def loopStep (inputs : Nat → String) (rands : Nat → RPS) (s : LoopSt) :
    LoopSt :=
  match parseRPS (pyLower (inputs s.iidx)) with
  | none => { s with iidx := s.iidx + 1 }
  | some p =>
      let o := rands s.ridx
      if p = o then
        { s with draw := s.draw + 1, iidx := s.iidx + 1, ridx := s.ridx + 1 }
      else if beats p o then
        { s with win := s.win + 1, iidx := s.iidx + 1, ridx := s.ridx + 1 }
      else
        { s with loss := s.loss + 1, energy := s.energy - 1,
                 iidx := s.iidx + 1, ridx := s.ridx + 1 }

/-- The fuel-indexed round loop.  `some` is the state at which the guard
failed (the loop exited); `none` means the fuel ran out while the guard still
held. -/
def battleLoop (inputs : Nat → String) (rands : Nat → RPS) :
    Nat → LoopSt → Option LoopSt
  | 0, s => if live s then none else some s
  | fuel + 1, s =>
      if live s then battleLoop inputs rands fuel (loopStep inputs rands s)
      else some s

/-- Fuel-indexed search for a decisive (valid, non-tied) round starting from
stream positions `(i, r)`, advancing the positions exactly as the round loop
does.  Used to state the fairness hypothesis of the amended termination
claim. -/
def probe (inputs : Nat → String) (rands : Nat → RPS) :
    Nat → Nat → Nat → Bool
  | 0, _, _ => false
  | fuel + 1, i, r =>
      match parseRPS (pyLower (inputs i)) with
      | none => probe inputs rands fuel (i + 1) r
      | some p => if p = rands r then probe inputs rands fuel (i + 1) (r + 1)
                  else true

/-- Fairness of the two streams: from every pair of read positions, some
later round is valid and not a tie. -/
def Fair (inputs : Nat → String) (rands : Nat → RPS) : Prop :=
  ∀ i r, ∃ fuel, probe inputs rands fuel i r = true

/-! ## The full challenge (`Pymon.Challenge`) -/

/-- Nickname of a creature reference, read through the heaps. -/
def refNickname (s : GameState) : CreatureRef → String
  | .wild i => (s.wilds.getD i dfltWild).nickname
  | .pymon i => (s.pymons.getD i dfltPymon).nickname

/-- Description of a creature reference. -/
def refDescription (s : GameState) : CreatureRef → String
  | .wild i => (s.wilds.getD i dfltWild).description
  | .pymon i => (s.pymons.getD i dfltPymon).description

/-- `opponent.adoptable`.  A `Pymon` object inherits `Creature.adoptable`
and `Pymon.__init__` never passes it, so it stays at the default `False`. -/
def refAdoptable (s : GameState) : CreatureRef → Bool
  | .wild i => (s.wilds.getD i dfltWild).adoptable
  | .pymon _ => false

/-- `opponent.location` — the `Creature.location` attribute (for a Pymon
object, `Creature.__init__` was called with the same value as
`current_location` and `Pymon.move` updates only `current_location`; captured
opponents are always wild creatures, whose `location` is set at spawn). -/
def refLocation (s : GameState) : CreatureRef → Option Nat
  | .wild i => (s.wilds.getD i dfltWild).location
  | .pymon i => (s.pymons.getD i dfltPymon).current_location

/-- The opponent-search loop of lines 324–328: the first creature in the
current location's list whose nickname equals the argument. -/
def findOpponent (s : GameState) (creature_name : String) :
    Option CreatureRef :=
  (curLoc s).creatures.find? (fun c => refNickname s c == creature_name)

/-- The three flavor lines shown for a non-adoptable opponent. -/
def dialogue (opp : String) : List String :=
  [opp ++ " just ignored you.",
   opp ++ " just laughed at you.",
   opp ++ " ran away."]

/-- Outcome of one `Pymon.Challenge` call.  `lostPromoted` carries the
nickname printed by `"... is now your primary Pymon."`; `gameOver` is the
`sys.exit(0)` of line 405. -/
inductive ChRes where
  | notHere
  | selfChallenge
  | notAdoptable (line : String)
  | won
  | lostPromoted (printed : String)
  | gameOver
deriving DecidableEq, Repr

/-- A fresh `Pymon(name, description, current_location=loc)` as built for a
captured opponent (line 385); line 390 re-sets energy to `enery_max`. -/
def capturedPymon (name description : String) (loc : Option Nat) : PymonR :=
  ⟨name, description, enery_max, [], [], 0, loc, false, []⟩

/-- `Pymon.Challenge(creature_name)`.  `inputs` is the stream of raw
`input()` strings for the round loop, `rands` the stream of the opponent's
`random.choice` throws, `dial` the index `random.choice` picks among the
three flavor lines, and `fuel` bounds the round loop (`none` = the loop was
still running when the fuel ran out; every non-loop path returns `some`). -/
def Challenge (s : GameState) (creature_name : String)
    (inputs : Nat → String) (rands : Nat → RPS) (dial : Nat) (fuel : Nat) :
    Option (GameState × ChRes) :=
  match findOpponent s creature_name with
  | none => some (s, .notHere)
  | some opp =>
    if opp = CreatureRef.pymon s.currentId then some (s, .selfChallenge)
    else if refAdoptable s opp = false then
      some (s, .notAdoptable ((dialogue (refNickname s opp)).getD (dial % 3) ""))
    else
      let p := curPymon s
      match battleLoop inputs rands fuel ⟨0, 0, 0, p.energy, 0, 0⟩ with
      | none => none
      | some fin =>
        let p1 := { p with
          energy := fin.energy,
          battle_stats := addBattle p.battle_stats p.nickname
            ⟨refNickname s opp, fin.win, fin.draw, fin.loss⟩ }
        if fin.win ≥ 2 then
          let captured := capturedPymon (refNickname s opp)
            (refDescription s opp) (refLocation s opp)
          let newId := s.pymons.length
          let p2 := { p1 with pets := p1.pets ++ [newId] }
          let s2 := { s with
            pymons := s.pymons.set s.currentId p2 ++ [captured] }
          let s3 :=
            match p.current_location with
            | none => s2
            | some lid =>
                let loc := s2.locations.getD lid dfltLoc
                let loc' := { loc with creatures := loc.creatures.erase opp }
                { s2 with locations := s2.locations.set lid loc' }
          some (s3, .won)
        else
          match p1.pets with
          | [] => some (setCur s p1, .gameOver)
          | petId :: rest =>
              let pet := s.pymons.getD petId dfltPymon
              let pet' := { pet with inventory := pet.inventory ++ p1.inventory }
              let p2 := { p1 with
                pets := rest
                inventory := []
                current_location := pet.current_location }
              let s2 := { s with
                pymons := (s.pymons.set petId pet').set s.currentId p2 }
              some (s2, .lostPromoted pet.nickname)

/-! ## Bench switching (`Operation.select_benched_pymon`) -/

/-- Python `list.pop(k)`: negative indices count from the end; an index
outside `[-len, len)` raises `IndexError` (modelled as `none`). -/
def pyPop {α : Type} (l : List α) (k : Int) : Option (α × List α) :=
  let j : Int := if k < 0 then k + l.length else k
  if 0 ≤ j ∧ j < l.length then
    match l.get? j.toNat with
    | some a => some (a, l.eraseIdx j.toNat)
    | none => none
  else none

/-- Outcome of one `Operation.select_benched_pymon` call.
`invalidSelection` is the `except (ValueError, IndexError)` branch. -/
inductive SelRes where
  | noPets
  | cancelled
  | switched (nick : String)
  | invalidSelection
deriving DecidableEq, Repr

/-- `Operation.select_benched_pymon()`.  `user` is the result of
`int(input(...))`: `none` models a non-integer string (`ValueError`).  On a
pop that succeeds, the old active Pymon is appended to its own pet list
(`self.current_pymon.pets.append(self.current_pymon)` runs while
`current_pymon` is still the old one) and then the popped Pymon becomes
`current_pymon`. -/
def select_benched_pymon (s : GameState) (user : Option Int) :
    GameState × SelRes :=
  let p := curPymon s
  if p.pets = [] then (s, .noPets)
  else
    match user with
    | none => (s, .invalidSelection)
    | some u =>
      if u = 0 then (s, .cancelled)
      else
        match pyPop p.pets (u - 1) with
        | none => (s, .invalidSelection)
        | some (selId, rest) =>
            let pOld := { p with pets := rest ++ [s.currentId] }
            ({ s with pymons := s.pymons.set s.currentId pOld,
                      currentId := selId },
             .switched (s.pymons.getD selId dfltPymon).nickname)

/-- A game command restricted to the two operations claim C2 quantifies
over: a `move` and a `Challenge` (with its streams and loop fuel). -/
inductive GOp where
  | mv (direction : String)
  | ch (creature_name : String) (inputs : Nat → String) (rands : Nat → RPS)
       (dial : Nat) (fuel : Nat)

/-- Run a sequence of commands; `none` when some challenge's round loop ran
out of fuel. -/
def runOps : GameState → List GOp → Option GameState
  | s, [] => some s
  | s, .mv d :: ops => runOps (move s d).1 ops
  | s, .ch n inputs rands dial fuel :: ops =>
      match Challenge s n inputs rands dial fuel with
      | none => none
      | some (s', _) => runOps s' ops

/-! ## Concrete states used by counterexamples and witnesses -/

/-- A two-room world: `Forest` (id 0) with an east door to `Cave` (id 1),
which has a west door back; the active Pymon (id 0) starts in `Forest` with
full energy and a fresh move counter. -/
def exMoveState : GameState :=
  { locations :=
      [⟨"Forest", "a forest",
        [("west", none), ("north", none), ("east", some 1), ("south", none)],
        [.pymon 0], []⟩,
       ⟨"Cave", "a cave",
        [("west", some 0), ("north", none), ("east", none), ("south", none)],
        [], []⟩]
    pymons := [⟨"Kimimon", "the player", 3, [], [], 0, some 0, false, []⟩]
    wilds := []
    currentId := 0 }

/-- Same world, but the active Pymon has 1 energy left and an odd move
counter, so the next successful move decrements energy to 0 and triggers
`random_escape`. -/
def exEscapeState : GameState :=
  { exMoveState with
    pymons := [⟨"Kimimon", "the player", 1, [], [], 1, some 0, false, []⟩] }

/-- A player-input stream that always answers `rock`. -/
def constRock : Nat → String := fun _ => "rock"

/-- An opponent stream that always throws rock. -/
def constRockR : Nat → RPS := fun _ => .rock

/-- An opponent stream that always throws paper (the player's constant rock
loses every round). -/
def constPaperR : Nat → RPS := fun _ => .paper

/-- An opponent stream that always throws scissors (the player's constant
rock wins every round). -/
def constScisR : Nat → RPS := fun _ => .scissors

/-- The item carried by the challenger in the battle scenarios. -/
def exApple : Item := ⟨"Apple", "a juicy apple", true, true⟩

/-- A battle scenario: the active Pymon `Kimimon` (id 0, energy 3, one item,
one benched pet `Buddy` = pymon id 1 whose home is location 1) shares
location 0 with the adoptable wild creature `Sheep` (wild id 0). -/
def exChW : GameState :=
  { locations :=
      [⟨"Meadow", "a meadow", defaultDoors, [.pymon 0, .wild 0], []⟩,
       ⟨"Barn", "a barn", defaultDoors, [], []⟩]
    pymons :=
      [⟨"Kimimon", "the player", 3, [exApple], [1], 0, some 0, false, []⟩,
       ⟨"Buddy", "a loyal pet", 3, [], [], 0, some 1, false, []⟩]
    wilds := [⟨"Sheep", "a fluffy sheep", true, some 0⟩]
    currentId := 0 }

/-- The battle scenario with the challenger's energy already at 0. -/
def exChW0 : GameState :=
  { exChW with
    pymons :=
      [⟨"Kimimon", "the player", 0, [exApple], [1], 0, some 0, false, []⟩,
       ⟨"Buddy", "a loyal pet", 3, [], [], 0, some 1, false, []⟩] }

/-- A scenario with a non-adoptable wild creature `Owl` present. -/
def exNAW : GameState :=
  { locations :=
      [⟨"Meadow", "a meadow", defaultDoors, [.pymon 0, .wild 0], []⟩]
    pymons :=
      [⟨"Kimimon", "the player", 3, [exApple], [], 0, some 0, false, []⟩]
    wilds := [⟨"Owl", "a grumpy owl", false, some 0⟩]
    currentId := 0 }

/-- A bench-switching scenario: the active Pymon has two benched pets
`A` (pymon id 1) and `B` (pymon id 2). -/
def exSelW : GameState :=
  { locations := [⟨"Meadow", "a meadow", defaultDoors, [.pymon 0], []⟩]
    pymons :=
      [⟨"Kimimon", "the player", 3, [], [1, 2], 0, some 0, false, []⟩,
       ⟨"A", "pet A", 3, [], [], 0, some 0, false, []⟩,
       ⟨"B", "pet B", 3, [], [], 0, some 0, false, []⟩]
    wilds := []
    currentId := 0 }

/-- Two fresh unconnected rooms, for the `connect` counterexample. -/
def exLocs : List LocationR :=
  [⟨"RoomA", "room a", defaultDoors, [], []⟩,
   ⟨"RoomB", "room b", defaultDoors, [], []⟩]

/-! ## Helper lemmas -/

theorem getD_set_self {α : Type} (l : List α) (i : Nat) (a d : α)
    (h : i < l.length) : (l.set i a).getD i d = a := by
  induction l generalizing i with
  | nil => simp at h
  | cons x xs ih =>
    cases i with
    | zero => rfl
    | succ n => exact ih n (by simpa using h)

theorem getD_set_ne {α : Type} (l : List α) (i j : Nat) (a d : α)
    (h : i ≠ j) : (l.set i a).getD j d = l.getD j d := by
  induction l generalizing i j with
  | nil => rfl
  | cons x xs ih =>
    cases i with
    | zero =>
      cases j with
      | zero => exact absurd rfl h
      | succ m => rfl
    | succ n =>
      cases j with
      | zero => rfl
      | succ m => exact ih n m (fun hc => h (by rw [hc]))

theorem length_set_eq {α : Type} (l : List α) (i : Nat) (a : α) :
    (l.set i a).length = l.length := by simp

/-- Appending one record to a `BattleStats` ledger grows the total record
count by exactly one. -/
theorem addBattle_recCount (bs : List (String × List BattleRec))
    (name : String) (r : BattleRec) :
    recCount (addBattle bs name r) = recCount bs + 1 := by
  induction bs with
  | nil => simp [addBattle, recCount]
  | cons e rest ih =>
    by_cases h : e.1 = name
    · simp [addBattle, h, recCount]; omega
    · simp [addBattle, h, recCount] at ih ⊢; omega

theorem getD_mem {α : Type} (l : List α) (i : Nat) (d : α)
    (h : i < l.length) : l.getD i d ∈ l := by
  rw [List.getD_eq_getElem l d h]
  exact List.getElem_mem h

/-- `dictSet` then `dictGet` at the written key. -/
theorem dictGet_dictSet_self (d : List (String × Option Nat)) (k : String)
    (v : Option Nat) : dictGet (dictSet d k v) k = some v := by
  induction d with
  | nil => simp [dictSet, dictGet]
  | cons e rest ih =>
    by_cases h : e.1 = k
    · simp [dictSet, h, dictGet]
    · simp [dictSet, h, dictGet, ih]

/-- `dictSet` leaves every other key's value unchanged. -/
theorem dictGet_dictSet_ne (d : List (String × Option Nat)) (k k' : String)
    (v : Option Nat) (h : k ≠ k') : dictGet (dictSet d k v) k' = dictGet d k' := by
  induction d with
  | nil => simp [dictSet, dictGet, h]
  | cons e rest ih =>
    by_cases he : e.1 = k
    · simp [dictSet, he, dictGet, h]
    · simp [dictSet, he, dictGet, ih]

/-- For a direction outside the four cardinals, the opposite lookup misses. -/
theorem lookupOpp_eq_none (direction : String) (h : direction ∉ dirs) :
    lookupOpp direction = none := by
  simp [dirs] at h
  obtain ⟨h1, h2, h3, h4⟩ := h
  simp [lookupOpp, h1, h2, h3, h4]

/-! ## Claim C5 — `Location.connect` on a non-cardinal direction -/

/-- C5 counterexample: calling `connect` with the non-cardinal direction
`"up"` does not fail with `InvalidDirection` — it returns normally and
*changes* the receiver's door slots, appending a new `"up"` key that points
at the other room. -/
theorem C5_counterexample :
    dictGet ((connect exLocs 0 "up" 1).getD 0 dfltLoc).doors "up" =
      some (some 1) ∧
    dictGet (exLocs.getD 0 dfltLoc).doors "up" = none ∧
    (connect exLocs 0 "up" 1).getD 0 dfltLoc ≠ exLocs.getD 0 dfltLoc := by
  decide

/-- C5 amended: `connect` performs no validation at all and cannot fail.
For every direction outside {west, north, east, south} it still writes the
receiver's door slot for that direction (adding a new dict key), leaves the
receiver's other door slots, creatures and items unchanged, and — because the
opposite-direction lookup misses — leaves every other location, in
particular the target, completely unchanged. -/
theorem C5_connect_amended (locs : List LocationR) (a b : Nat)
    (direction : String) (hd : direction ∉ dirs) (ha : a < locs.length) :
    dictGet ((connect locs a direction b).getD a dfltLoc).doors direction =
      some (some b) ∧
    (∀ k, k ≠ direction →
      dictGet ((connect locs a direction b).getD a dfltLoc).doors k =
        dictGet (locs.getD a dfltLoc).doors k) ∧
    ((connect locs a direction b).getD a dfltLoc).creatures =
      (locs.getD a dfltLoc).creatures ∧
    ((connect locs a direction b).getD a dfltLoc).items =
      (locs.getD a dfltLoc).items ∧
    (∀ j, j ≠ a → (connect locs a direction b).getD j dfltLoc =
      locs.getD j dfltLoc) := by
  have hOpp := lookupOpp_eq_none direction hd
  have hEq : connect locs a direction b =
      locs.set a { locs.getD a dfltLoc with
        doors := dictSet (locs.getD a dfltLoc).doors direction (some b) } := by
    simp [connect, hOpp]
  rw [hEq]
  refine ⟨?_, ?_, ?_, ?_, ?_⟩
  · rw [getD_set_self _ _ _ _ ha]
    exact dictGet_dictSet_self _ _ _
  · intro k hk
    rw [getD_set_self _ _ _ _ ha]
    exact dictGet_dictSet_ne _ _ _ _ (Ne.symm hk)
  · rw [getD_set_self _ _ _ _ ha]
  · rw [getD_set_self _ _ _ _ ha]
  · intro j hj
    exact getD_set_ne _ _ _ _ _ (Ne.symm hj)

/-- C5 amended, witnessed on the two-room world with direction `"up"`. -/
theorem C5_connect_amended_witness :
    dictGet ((connect exLocs 0 "up" 1).getD 0 dfltLoc).doors "up" =
      some (some 1) ∧
    (connect exLocs 0 "up" 1).getD 1 dfltLoc = exLocs.getD 1 dfltLoc :=
  ⟨(C5_connect_amended exLocs 0 1 "up" (by decide) (by decide)).1,
   (C5_connect_amended exLocs 0 1 "up" (by decide) (by decide)).2.2.2.2 1
     (by decide)⟩

/-! ## Claim C7 — challenging a non-adoptable creature is effect-free -/

/-- C7: challenging a present, non-adoptable, non-self creature returns the
game state completely unchanged (so the challenger's energy, inventory, pet
stack and location, every location's creature and item lists and the
`BattleStats` ledger are all unchanged and no battle record is appended) and
produces one of the three random flavor lines. -/
theorem C7_nonadoptable_frame (s : GameState) (name : String)
    (inputs : Nat → String) (rands : Nat → RPS) (dial fuel : Nat)
    (opp : CreatureRef) (h_find : findOpponent s name = some opp)
    (h_self : opp ≠ CreatureRef.pymon s.currentId)
    (h_na : refAdoptable s opp = false) :
    ∃ line, Challenge s name inputs rands dial fuel =
        some (s, ChRes.notAdoptable line) ∧
      line ∈ dialogue (refNickname s opp) := by
  refine ⟨(dialogue (refNickname s opp)).getD (dial % 3) "", ?_, ?_⟩
  · simp [Challenge, h_find, h_self, h_na]
  · apply getD_mem
    simp [dialogue]
    omega

/-- C7 witnessed: Kimimon challenges the grumpy owl. -/
theorem C7_nonadoptable_frame_witness :
    ∃ line, Challenge exNAW "Owl" constRock constPaperR 1 5 =
        some (exNAW, ChRes.notAdoptable line) ∧
      line ∈ dialogue (refNickname exNAW (CreatureRef.wild 0)) :=
  C7_nonadoptable_frame exNAW "Owl" constRock constPaperR 1 5
    (CreatureRef.wild 0) (by decide) (by decide) (by decide)

/-! ## Claim C9 — a failed move leaves the whole game state unchanged -/

/-- C9: when `Pymon.move` fails — the direction is not one of the four
cardinals, or the current location's door slot for it is absent or `None` —
the returned state is exactly the input state: the Pymon's location, energy
and move counter and every location's creature list are untouched. -/
theorem C9_move_failure_frame (s : GameState) (direction : String) (lid : Nat)
    (hloc : (curPymon s).current_location = some lid)
    (hfail : direction ∉ dirs ∨
      dictGet (s.locations.getD lid dfltLoc).doors direction = none ∨
      dictGet (s.locations.getD lid dfltLoc).doors direction = some none) :
    move s direction = (s, MoveRes.invalidDirection) := by
  by_cases hd : direction ∈ dirs
  · rcases hfail with h | h | h
    · exact absurd hd h
    · simp only [move, hloc, h]
      rw [if_pos hd]
    · simp only [move, hloc, h]
      rw [if_pos hd]
  · simp only [move]
    rw [if_neg hd]

/-- C9 witnessed: a move north, where the door slot holds `None`. -/
theorem C9_move_failure_frame_witness :
    move exMoveState "north" = (exMoveState, MoveRes.invalidDirection) :=
  C9_move_failure_frame exMoveState "north" 0 (by decide)
    (Or.inr (Or.inr (by decide)))


/-! ## Characterising one `move` call -/

theorem random_escape_eq (s : GameState) :
    random_escape s =
      Except.error "TypeError: dict_values object is not subscriptable" := rfl

/-- The successful-move body keeps the active id and the heap size, bumps or
resets the move counter, and decrements energy exactly when the counter was
odd; the result is `ok`, or `escapeError` when energy just hit 0 and the
forced relocation raised. -/
theorem moveSuccess_fields (s : GameState) (lid nid : Nat)
    (hcur : s.currentId < s.pymons.length) :
    ((moveSuccess s lid nid).2 = MoveRes.ok ∨
      (moveSuccess s lid nid).2 = MoveRes.escapeError) ∧
    (moveSuccess s lid nid).1.currentId = s.currentId ∧
    (moveSuccess s lid nid).1.pymons.length = s.pymons.length ∧
    (curPymon (moveSuccess s lid nid).1).track_moves =
      (if 1 ≤ (curPymon s).track_moves then 0
       else (curPymon s).track_moves + 1) ∧
    (curPymon (moveSuccess s lid nid).1).energy =
      (if 1 ≤ (curPymon s).track_moves then (curPymon s).energy - 1
       else (curPymon s).energy) := by
  have hiff : (2 ≤ (curPymon s).track_moves + 1) ↔
      (1 ≤ (curPymon s).track_moves) := by omega
  by_cases ht : 1 ≤ (curPymon s).track_moves
  · by_cases he : (curPymon s).energy - 1 ≤ 0
    · simp only [moveSuccess, random_escape_eq, ge_iff_le]
      rw [if_pos (hiff.mpr ht), if_pos he]
      refine ⟨Or.inr rfl, rfl, by simp, ?_, ?_⟩
      · simp only [curPymon] at ht ⊢
        rw [getD_set_self _ _ _ _ hcur, if_pos ht]
      · simp only [curPymon] at ht ⊢
        rw [getD_set_self _ _ _ _ hcur, if_pos ht]
    · simp only [moveSuccess, random_escape_eq, ge_iff_le]
      rw [if_pos (hiff.mpr ht), if_neg he]
      refine ⟨Or.inl rfl, rfl, by simp, ?_, ?_⟩
      · simp only [curPymon] at ht ⊢
        rw [getD_set_self _ _ _ _ hcur, if_pos ht]
      · simp only [curPymon] at ht ⊢
        rw [getD_set_self _ _ _ _ hcur, if_pos ht]
  · simp only [moveSuccess, ge_iff_le]
    rw [if_neg (fun hc => ht (hiff.mp hc))]
    refine ⟨Or.inl rfl, rfl, by simp, ?_, ?_⟩
    · simp only [curPymon] at ht ⊢
      rw [getD_set_self _ _ _ _ hcur, if_neg ht]
    · simp only [curPymon] at ht ⊢
      rw [getD_set_self _ _ _ _ hcur, if_neg ht]

/-- Every `move` call either fails with the state unchanged, or runs the
successful-move body. -/
theorem move_char (s : GameState) (d : String) :
    (move s d = (s, MoveRes.invalidDirection) ∨
      move s d = (s, MoveRes.noLocation)) ∨
    (∃ lid nid, (curPymon s).current_location = some lid ∧
      move s d = moveSuccess s lid nid) := by
  by_cases hd : d ∈ dirs
  · rcases hloc : (curPymon s).current_location with _ | lid
    · left
      right
      simp only [move, hloc]
      rw [if_pos hd]
    · rcases hdoor : dictGet (s.locations.getD lid dfltLoc).doors d
        with _ | onid
      · left
        left
        simp only [move, hloc, hdoor]
        rw [if_pos hd]
      · rcases onid with _ | nid
        · left
          left
          simp only [move, hloc, hdoor]
          rw [if_pos hd]
        · right
          refine ⟨lid, nid, rfl, ?_⟩
          simp only [move, hloc, hdoor]
          rw [if_pos hd]
  · left
    left
    simp only [move]
    rw [if_neg hd]

/-- A failed `move` (direction invalid, or door absent/`None`) leaves the
state unchanged. -/
theorem move_fail_frame (s : GameState) (d : String)
    (hcur : s.currentId < s.pymons.length)
    (h : (move s d).2 = MoveRes.invalidDirection ∨
      (move s d).2 = MoveRes.noLocation) :
    (move s d).1 = s := by
  rcases move_char s d with (h1 | h1) | ⟨lid, nid, _, h1⟩
  · rw [h1]
  · rw [h1]
  · exfalso
    have h2 := (moveSuccess_fields s lid nid hcur).1
    rw [h1] at h
    rcases h2 with h2 | h2 <;> rcases h with h3 | h3 <;>
      rw [h2] at h3 <;> exact MoveRes.noConfusion h3

/-- Cumulative effect of a sequence of `move` calls on the active Pymon:
with a move counter at most 1, the counter ends at `(t + n) % 2` and the
energy has dropped by `(t + n) / 2`, where `n` counts successful moves. -/
theorem moveSeq_char (ds : List String) (s : GameState)
    (hcur : s.currentId < s.pymons.length)
    (h0 : (curPymon s).track_moves ≤ 1) :
    (moveSeq s ds).1.currentId = s.currentId ∧
    (moveSeq s ds).1.pymons.length = s.pymons.length ∧
    (curPymon (moveSeq s ds).1).track_moves =
      ((curPymon s).track_moves + (moveSeq s ds).2) % 2 ∧
    (curPymon (moveSeq s ds).1).energy =
      (curPymon s).energy -
        ((((curPymon s).track_moves + (moveSeq s ds).2) / 2 : Nat) : Int) := by
  induction ds generalizing s with
  | nil =>
    refine ⟨rfl, rfl, ?_, ?_⟩
    · simp [moveSeq]
      omega
    · have hz : ((curPymon s).track_moves + (moveSeq s []).2) / 2 = 0 := by
        simp [moveSeq]
        omega
      rw [hz]
      simp [moveSeq]
  | cons d ds ih =>
    rcases move_char s d with (h1 | h1) | ⟨lid, nid, _, h1⟩
    · have hstep : moveSeq s (d :: ds) =
          ((moveSeq s ds).1, 0 + (moveSeq s ds).2) := by
        simp only [moveSeq, h1]
        rfl
      rw [hstep]
      simpa using ih s hcur h0
    · have hstep : moveSeq s (d :: ds) =
          ((moveSeq s ds).1, 0 + (moveSeq s ds).2) := by
        simp only [moveSeq, h1]
        rfl
      rw [hstep]
      simpa using ih s hcur h0
    · obtain ⟨hres, hid, hlen, htr, hen⟩ := moveSuccess_fields s lid nid hcur
      have hb : (if (move s d).2 = MoveRes.ok ∨
          (move s d).2 = MoveRes.escapeError then 1 else 0) = 1 := by
        rw [h1]
        rcases hres with h2 | h2 <;> simp [h2]
      have hstep : moveSeq s (d :: ds) =
          ((moveSeq (move s d).1 ds).1, 1 + (moveSeq (move s d).1 ds).2) := by
        simp only [moveSeq]
        rw [hb]
      rw [hstep]
      have hcur' : (move s d).1.currentId < (move s d).1.pymons.length := by
        rw [h1, hid, hlen]
        exact hcur
      have h0' : (curPymon (move s d).1).track_moves ≤ 1 := by
        rw [h1, htr]
        split_ifs <;> omega
      obtain ⟨ih1, ih2, ih3, ih4⟩ := ih (move s d).1 hcur' h0'
      rw [h1] at ih1 ih2 ih3 ih4 ⊢
      refine ⟨ih1.trans hid, ih2.trans hlen, ?_, ?_⟩
      · rw [ih3, htr]
        by_cases ht : 1 ≤ (curPymon s).track_moves
        · rw [if_pos ht]
          omega
        · rw [if_neg ht]
          omega
      · rw [ih4, htr, hen]
        by_cases ht : 1 ≤ (curPymon s).track_moves
        · rw [if_pos ht, if_pos ht]
          have harith : ((curPymon s).track_moves +
              (1 + (moveSeq (moveSuccess s lid nid).1 ds).2)) / 2 =
              (0 + (moveSeq (moveSuccess s lid nid).1 ds).2) / 2 + 1 := by
            omega
          rw [harith]
          push_cast
          ring
        · rw [if_neg ht, if_neg ht]
          have harith : ((curPymon s).track_moves +
              (1 + (moveSeq (moveSuccess s lid nid).1 ds).2)) / 2 =
              ((curPymon s).track_moves + 1 +
                (moveSeq (moveSuccess s lid nid).1 ds).2) / 2 := by
            omega
          rw [harith]

/-! ## Claim C6 — the move-energy law -/

/-- C6: starting from a fresh move counter, after any sequence of moves the
active Pymon's energy has dropped by exactly half the number of successful
moves (rounded down) — so the 2nd, 4th, 6th, … successful moves each
decrement energy by 1 and reset the counter, while odd-numbered successful
moves leave energy unchanged — and a failed move changes nothing at all. -/
theorem C6_move_energy_law (s : GameState) (ds : List String)
    (hcur : s.currentId < s.pymons.length)
    (h0 : (curPymon s).track_moves = 0) :
    (curPymon (moveSeq s ds).1).energy =
      (curPymon s).energy - ((((moveSeq s ds).2 / 2 : Nat)) : Int) ∧
    (curPymon (moveSeq s ds).1).track_moves = (moveSeq s ds).2 % 2 ∧
    ∀ t d, t.currentId < t.pymons.length →
      ((move t d).2 = MoveRes.invalidDirection ∨
        (move t d).2 = MoveRes.noLocation) →
      (move t d).1 = t := by
  obtain ⟨_, _, h3, h4⟩ := moveSeq_char ds s hcur (by omega)
  rw [h0] at h3 h4
  simp only [Nat.zero_add] at h3 h4
  exact ⟨h4, h3, fun t d hc hf => move_fail_frame t d hc hf⟩

/-- C6 witnessed: three successful moves cost 1 energy and leave the counter
at 1. -/
theorem C6_move_energy_law_witness :
    (curPymon (moveSeq exMoveState ["east", "west", "east"]).1).energy =
      (curPymon exMoveState).energy -
        ((((moveSeq exMoveState ["east", "west", "east"]).2 / 2 : Nat)) : Int) ∧
    (curPymon (moveSeq exMoveState ["east", "west", "east"]).1).track_moves =
      (moveSeq exMoveState ["east", "west", "east"]).2 % 2 :=
  ⟨(C6_move_energy_law exMoveState ["east", "west", "east"]
      (by decide) (by decide)).1,
   (C6_move_energy_law exMoveState ["east", "west", "east"]
      (by decide) (by decide)).2.1⟩

/-! ## Claim C2 — the energy invariant -/

/-- C2 counterexample: after eight successful moves from a full-energy start
the active Pymon's energy is −1, violating `0 ≤ energy`.  (The 6th move
drives energy to 0; the forced relocation raises an uncaught `TypeError`,
the game goes on, and the 8th move decrements again.) -/
theorem C2_counterexample :
    (curPymon (moveSeq exMoveState
      ["east", "west", "east", "west", "east", "west", "east", "west"]).1).energy
      < 0 := by decide

/-! ## Battle-loop lemmas -/

theorem loopStep_energy_le (inputs : Nat → String) (rands : Nat → RPS)
    (s : LoopSt) : (loopStep inputs rands s).energy ≤ s.energy := by
  unfold loopStep
  split
  · exact le_refl _
  · dsimp only
    split_ifs <;> simp

theorem loopStep_energy_ge (inputs : Nat → String) (rands : Nat → RPS)
    (s : LoopSt) : s.energy - 1 ≤ (loopStep inputs rands s).energy := by
  unfold loopStep
  split
  · simp
  · dsimp only
    split_ifs <;> simp

/-- When the round loop exits (returns `some`), the guard has failed, the
energy never rose, and a non-negative energy stayed non-negative. -/
theorem battleLoop_some_spec (inputs : Nat → String) (rands : Nat → RPS)
    (fuel : Nat) (s out : LoopSt)
    (h : battleLoop inputs rands fuel s = some out) :
    ¬ live out ∧ out.energy ≤ s.energy ∧ (0 ≤ s.energy → 0 ≤ out.energy) := by
  induction fuel generalizing s with
  | zero =>
    rw [battleLoop] at h
    split_ifs at h with hl
    rw [Option.some.injEq] at h
    subst h
    exact ⟨hl, le_refl _, fun h0 => h0⟩
  | succ f ih =>
    rw [battleLoop] at h
    split_ifs at h with hl
    · obtain ⟨h1, h2, h3⟩ := ih _ h
      refine ⟨h1, h2.trans (loopStep_energy_le _ _ _), fun h0 => h3 ?_⟩
      have hge := loopStep_energy_ge inputs rands s
      have hE : 0 < s.energy := hl.2.2
      omega
    · rw [Option.some.injEq] at h
      subst h
      exact ⟨hl, le_refl _, fun h0 => h0⟩

/-- A failed guard means one of the three exit causes.  The third is
`energy ≤ 0`, not `energy = 0`: a challenge can be entered with energy
already negative (reachable in play, see `C2_counterexample`), and then the
guard fails with the energy strictly below 0. -/
theorem not_live_cases (out : LoopSt)
    (h : ¬ live out) : 2 ≤ out.win ∨ 2 ≤ out.loss ∨ out.energy ≤ 0 := by
  unfold live at h
  omega

/-- A loop started on a dead guard returns its state untouched for every
fuel. -/
theorem battleLoop_not_live (inputs : Nat → String) (rands : Nat → RPS)
    (s : LoopSt) (h : ¬ live s) (fuel : Nat) :
    battleLoop inputs rands fuel s = some s := by
  cases fuel with
  | zero => rw [battleLoop, if_neg h]
  | succ f => rw [battleLoop, if_neg h]

/-- The round loop, from state `s`, exits within some fuel bound. -/
def Terminates (inputs : Nat → String) (rands : Nat → RPS)
    (s : LoopSt) : Prop :=
  ∃ fuel out, battleLoop inputs rands fuel s = some out

theorem terminates_of_not_live {inputs : Nat → String} {rands : Nat → RPS}
    (s : LoopSt) (h : ¬ live s) : Terminates inputs rands s :=
  ⟨0, s, by rw [battleLoop, if_neg h]⟩

theorem terminates_step {inputs : Nat → String} {rands : Nat → RPS}
    (s : LoopSt) (h : live s)
    (ht : Terminates inputs rands (loopStep inputs rands s)) :
    Terminates inputs rands s := by
  obtain ⟨f, out, hf⟩ := ht
  exact ⟨f + 1, out, by rw [battleLoop, if_pos h]; exact hf⟩

/-- Termination measure: distance of the two tallies from the exit bound. -/
def msr (s : LoopSt) : Nat := (2 - s.win) + (2 - s.loss)

/-- If a decisive round is found within `f` probe steps from the current
stream positions, the loop terminates — assuming every state of smaller
measure already terminates. -/
theorem probe_progress (inputs : Nat → String) (rands : Nat → RPS) :
    ∀ f (s : LoopSt), live s → probe inputs rands f s.iidx s.ridx = true →
      (∀ t : LoopSt, msr t < msr s → Terminates inputs rands t) →
      Terminates inputs rands s := by
  intro f
  induction f with
  | zero =>
    intro s _ hp _
    rw [probe] at hp
    exact absurd hp (by simp)
  | succ f ih =>
    intro s hl hp hsmall
    rw [probe] at hp
    rcases hin : parseRPS (pyLower (inputs s.iidx)) with _ | p
    · simp only [hin] at hp
      have hstep : loopStep inputs rands s = { s with iidx := s.iidx + 1 } := by
        unfold loopStep
        simp only [hin]
      apply terminates_step s hl
      rw [hstep]
      exact ih { s with iidx := s.iidx + 1 } hl hp hsmall
    · simp only [hin] at hp
      by_cases hdraw : p = rands s.ridx
      · rw [if_pos hdraw] at hp
        have hstep : loopStep inputs rands s =
            { s with draw := s.draw + 1, iidx := s.iidx + 1,
                     ridx := s.ridx + 1 } := by
          unfold loopStep
          simp only [hin]
          rw [if_pos hdraw]
        apply terminates_step s hl
        rw [hstep]
        exact ih _ hl hp hsmall
      · have hwl : msr (loopStep inputs rands s) < msr s := by
          have hw : s.win < 2 := hl.1
          have hlo : s.loss < 2 := hl.2.1
          unfold loopStep
          simp only [hin]
          rw [if_neg hdraw]
          by_cases hb : beats p (rands s.ridx) = true
          · rw [if_pos hb]
            unfold msr
            simp
            omega
          · rw [if_neg hb]
            unfold msr
            simp
            omega
        exact terminates_step s hl (hsmall _ hwl)

/-- Under the fairness hypothesis the round loop terminates from every
state. -/
theorem battleLoop_terminates (inputs : Nat → String) (rands : Nat → RPS)
    (hF : Fair inputs rands) (s : LoopSt) : Terminates inputs rands s := by
  suffices H : ∀ n (t : LoopSt), msr t ≤ n → Terminates inputs rands t from
    H (msr s) s (le_refl _)
  intro n
  induction n with
  | zero =>
    intro t hm
    apply terminates_of_not_live
    unfold msr at hm
    unfold live
    omega
  | succ n ih =>
    intro t hm
    by_cases hl : live t
    · obtain ⟨f, hp⟩ := hF t.iidx t.ridx
      exact probe_progress inputs rands f t hl hp
        (fun u hu => ih u (by unfold msr at *; omega))
    · exact terminates_of_not_live t hl

/-! ## Characterising `Pymon.Challenge` -/

/-- Characterisation of `Pymon.Challenge` against a present, adoptable,
distinct opponent, once the round loop has exited with tallies `fin`: the
call returns, the challenger keeps the active id, the pymon heap never
shrinks, the challenger's energy is the loop's final energy, exactly the
record `(opponent, win, draw, loss)` is appended to its ledger, and the
post-battle branch is determined by the tallies — capture on `win ≥ 2`,
otherwise front-pet promotion (or game over with no pets). -/
theorem Challenge_battle_char (s : GameState) (name : String)
    (inputs : Nat → String) (rands : Nat → RPS) (dial fuel : Nat)
    (opp : CreatureRef) (fin : LoopSt)
    (hcur : s.currentId < s.pymons.length)
    (hfind : findOpponent s name = some opp)
    (hself : opp ≠ CreatureRef.pymon s.currentId)
    (hadopt : refAdoptable s opp = true)
    (hbl : battleLoop inputs rands fuel
      ⟨0, 0, 0, (curPymon s).energy, 0, 0⟩ = some fin) :
    ∃ s' res,
      Challenge s name inputs rands dial fuel = some (s', res) ∧
      s'.currentId = s.currentId ∧
      s.pymons.length ≤ s'.pymons.length ∧
      (curPymon s').energy = fin.energy ∧
      (curPymon s').battle_stats =
        addBattle (curPymon s).battle_stats (curPymon s).nickname
          ⟨refNickname s opp, fin.win, fin.draw, fin.loss⟩ ∧
      (2 ≤ fin.win → res = ChRes.won) ∧
      (fin.win < 2 → (curPymon s).pets = [] → res = ChRes.gameOver) ∧
      (fin.win < 2 → ∀ petId rest, (curPymon s).pets = petId :: rest →
        res = ChRes.lostPromoted ((s.pymons.getD petId dfltPymon).nickname) ∧
        (curPymon s').pets = rest ∧
        (curPymon s').inventory = [] ∧
        (curPymon s').current_location =
          (s.pymons.getD petId dfltPymon).current_location) := by
  simp only [Challenge, hfind, hself, hadopt, Bool.true_eq_false, if_false,
    ite_false, hbl]
  by_cases hwin : fin.win ≥ 2
  · simp only [hwin, ite_true, if_true]
    rcases hl2 : (curPymon s).current_location with _ | lid
    · simp only [hl2]
      refine ⟨_, _, rfl, rfl, ?_, ?_, ?_, fun _ => rfl, ?_, ?_⟩
      · simp
      · simp only [curPymon]
        rw [List.getD_append _ _ _ _ (by simpa using hcur),
          getD_set_self _ _ _ _ hcur]
      · simp only [curPymon]
        rw [List.getD_append _ _ _ _ (by simpa using hcur),
          getD_set_self _ _ _ _ hcur]
      · intro h
        exact absurd h (by omega)
      · intro h
        exact absurd h (by omega)
    · simp only [hl2]
      refine ⟨_, _, rfl, rfl, ?_, ?_, ?_, fun _ => rfl, ?_, ?_⟩
      · simp
      · simp only [curPymon]
        rw [List.getD_append _ _ _ _ (by simpa using hcur),
          getD_set_self _ _ _ _ hcur]
      · simp only [curPymon]
        rw [List.getD_append _ _ _ _ (by simpa using hcur),
          getD_set_self _ _ _ _ hcur]
      · intro h
        exact absurd h (by omega)
      · intro h
        exact absurd h (by omega)
  · simp only [hwin, ite_false, if_false]
    rcases hp : (curPymon s).pets with _ | ⟨petId, rest⟩
    · simp only [hp]
      refine ⟨_, _, rfl, rfl, ?_, ?_, ?_, ?_,
        fun _ _ => rfl, fun _ petId rest hcons => List.noConfusion hcons⟩
      · simp [setCur]
      · simp only [curPymon, setCur]
        rw [getD_set_self _ _ _ _ hcur]
      · simp only [curPymon, setCur]
        rw [getD_set_self _ _ _ _ hcur]
      · intro h
        exact h.elim
    · simp only [hp]
      refine ⟨_, _, rfl, rfl, ?_, ?_, ?_, ?_,
        fun _ hnil => List.noConfusion hnil, ?_⟩
      · simp
      · simp only [curPymon]
        rw [getD_set_self _ _ _ _ (by simpa using hcur)]
      · simp only [curPymon]
        rw [getD_set_self _ _ _ _ (by simpa using hcur)]
      · intro h
        exact h.elim
      · intro _ petId' rest' hc
        injection hc with h1 h2
        subst h1
        subst h2
        refine ⟨rfl, ?_, ?_, ?_⟩ <;>
          · simp only [curPymon]
            rw [getD_set_self _ _ _ _ (by simpa using hcur)]

/-- Any returning `Challenge` call keeps the active id, never shrinks the
pymon heap, and never increases the challenger's energy. -/
theorem Challenge_some_le (s : GameState) (name : String)
    (inputs : Nat → String) (rands : Nat → RPS) (dial fuel : Nat)
    (s' : GameState) (res : ChRes)
    (hcur : s.currentId < s.pymons.length)
    (h : Challenge s name inputs rands dial fuel = some (s', res)) :
    s'.currentId = s.currentId ∧ s.pymons.length ≤ s'.pymons.length ∧
    (curPymon s').energy ≤ (curPymon s).energy := by
  rcases hfind : findOpponent s name with _ | opp
  · simp only [Challenge, hfind, Option.some.injEq, Prod.mk.injEq] at h
    obtain ⟨h1, _⟩ := h
    subst h1
    exact ⟨rfl, le_refl _, le_refl _⟩
  · by_cases hself : opp = CreatureRef.pymon s.currentId
    · simp only [Challenge, hfind, hself, ite_true, if_true,
        Option.some.injEq, Prod.mk.injEq] at h
      obtain ⟨h1, _⟩ := h
      subst h1
      exact ⟨rfl, le_refl _, le_refl _⟩
    · by_cases hadopt : refAdoptable s opp = false
      · simp only [Challenge, hfind, hself, hadopt, ite_true, if_true,
          ite_false, if_false, Option.some.injEq, Prod.mk.injEq] at h
        obtain ⟨h1, _⟩ := h
        subst h1
        exact ⟨rfl, le_refl _, le_refl _⟩
      · have hadT : refAdoptable s opp = true := by
          cases hb : refAdoptable s opp
          · exact absurd hb hadopt
          · rfl
        rcases hbl : battleLoop inputs rands fuel
            ⟨0, 0, 0, (curPymon s).energy, 0, 0⟩ with _ | fin
        · simp only [Challenge, hfind, hself, hadopt, hadT,
            Bool.true_eq_false, ite_false, if_false, hbl] at h
          exact Option.noConfusion h
        · obtain ⟨s2, res2, hch, hc, hlen, hen, _⟩ :=
            Challenge_battle_char s name inputs rands dial fuel opp fin
              hcur hfind hself hadT hbl
          rw [hch, Option.some.injEq, Prod.mk.injEq] at h
          obtain ⟨h1, _⟩ := h
          subst h1
          refine ⟨hc, hlen, ?_⟩
          rw [hen]
          have := (battleLoop_some_spec _ _ _ _ _ hbl).2.1
          exact this

/-! ## Claim C1 — battle match termination and exit condition -/

/-- With the player answering `rock` forever and the opponent throwing rock
forever, every round is a draw and the loop guard can never fail: the loop
runs out of any fuel. -/
theorem battleLoop_const_rock_none :
    ∀ fuel (s : LoopSt), s.win < 2 → s.loss < 2 → 0 < s.energy →
      battleLoop constRock constRockR fuel s = none := by
  intro fuel
  induction fuel with
  | zero =>
    intro s hw hl he
    rw [battleLoop, if_pos ⟨hw, hl, he⟩]
  | succ f ih =>
    intro s hw hl he
    rw [battleLoop, if_pos ⟨hw, hl, he⟩]
    have hpar : parseRPS (pyLower (constRock s.iidx)) = some RPS.rock := rfl
    have hstep : loopStep constRock constRockR s =
        { s with draw := s.draw + 1, iidx := s.iidx + 1,
                 ridx := s.ridx + 1 } := by
      unfold loopStep
      simp only [hpar]
      have hro : RPS.rock = constRockR s.ridx := rfl
      rw [if_pos hro]
    rw [hstep]
    exact ih _ hw hl he

/-- C1 counterexample.  First part: the round loop does *not* terminate for
every input/random stream — with both streams constantly `rock` every round
is a draw and no fuel suffices.  Second part: the exit condition is not
*exactly one* of {win ≥ 2, loss ≥ 2, energy = 0} — a challenger entering
with energy 2 who loses two straight rounds exits with loss = 2 *and*
energy = 0 simultaneously. -/
theorem C1_counterexample :
    (∀ fuel, battleLoop constRock constRockR fuel
      ⟨0, 0, 0, 3, 0, 0⟩ = none) ∧
    (battleLoop constRock constPaperR 2 ⟨0, 0, 0, 2, 0, 0⟩ =
        some ⟨0, 0, 2, 0, 2, 2⟩ ∧
      2 ≤ (2 : Nat) ∧ (0 : Int) = 0) := by
  refine ⟨fun fuel => battleLoop_const_rock_none fuel _ ?_ ?_ ?_, by decide⟩
  · decide
  · decide
  · decide

/-- C1 amended: against a present, adoptable, distinct opponent, and for
every pair of streams that keeps offering a valid, non-tied round
(`Fair`), the round loop terminates; at exit *at least one* of
{win ≥ 2, loss ≥ 2, energy ≤ 0} holds (two can hold at once, and the third
is `≤ 0` rather than `= 0` because a challenge can be entered with energy
already negative); and exactly one battle record — the final tally — is
appended to the challenger's `BattleStats`. -/
theorem C1_battle_termination_amended (s : GameState) (name : String)
    (inputs : Nat → String) (rands : Nat → RPS) (dial : Nat)
    (opp : CreatureRef)
    (hcur : s.currentId < s.pymons.length)
    (hfind : findOpponent s name = some opp)
    (hself : opp ≠ CreatureRef.pymon s.currentId)
    (hadopt : refAdoptable s opp = true)
    (hF : Fair inputs rands) :
    ∃ (fuel : Nat) (s' : GameState) (res : ChRes) (fin : LoopSt),
      Challenge s name inputs rands dial fuel = some (s', res) ∧
      (2 ≤ fin.win ∨ 2 ≤ fin.loss ∨ fin.energy ≤ 0) ∧
      (curPymon s').energy = fin.energy ∧
      (curPymon s').battle_stats =
        addBattle (curPymon s).battle_stats (curPymon s).nickname
          ⟨refNickname s opp, fin.win, fin.draw, fin.loss⟩ ∧
      recCount ((curPymon s').battle_stats) =
        recCount ((curPymon s).battle_stats) + 1 := by
  obtain ⟨fuel, fin, hbl⟩ :=
    battleLoop_terminates inputs rands hF ⟨0, 0, 0, (curPymon s).energy, 0, 0⟩
  obtain ⟨hnl, _, _⟩ := battleLoop_some_spec _ _ _ _ _ hbl
  obtain ⟨s', res, hch, _, _, hen', hbs, _⟩ :=
    Challenge_battle_char s name inputs rands dial fuel opp fin
      hcur hfind hself hadopt hbl
  refine ⟨fuel, s', res, fin, hch, ?_, hen', hbs, ?_⟩
  · exact not_live_cases fin hnl
  · rw [hbs]
    exact addBattle_recCount _ _ _

/-- C1 amended, witnessed: Kimimon fights the sheep with constant `rock`
against constant `paper` — a fair pair of streams (every probe finds a
decisive round at once). -/
theorem C1_battle_termination_amended_witness :
    ∃ (fuel : Nat) (s' : GameState) (res : ChRes) (fin : LoopSt),
      Challenge exChW "Sheep" constRock constPaperR 0 fuel =
        some (s', res) ∧
      (2 ≤ fin.win ∨ 2 ≤ fin.loss ∨ fin.energy ≤ 0) ∧
      (curPymon s').energy = fin.energy ∧
      (curPymon s').battle_stats =
        addBattle (curPymon exChW).battle_stats (curPymon exChW).nickname
          ⟨refNickname exChW (CreatureRef.wild 0), fin.win, fin.draw,
            fin.loss⟩ ∧
      recCount ((curPymon s').battle_stats) =
        recCount ((curPymon exChW).battle_stats) + 1 :=
  C1_battle_termination_amended exChW "Sheep" constRock constPaperR 0
    (CreatureRef.wild 0) (by decide) (by decide) (by decide) (by decide)
    (fun i r => ⟨1, rfl⟩)

/-! ## Claim C10 — challenging with energy already 0 -/

/-- C10: if the active Pymon challenges a present, adoptable, distinct
opponent while its energy is already 0, the guard fails before the first
round: a battle record with wins = draws = losses = 0 is still appended to
its `BattleStats`, and the match-loss branch is taken — front-pet promotion
when a pet exists, game over otherwise — even though no round was ever
lost. -/
theorem C10_zero_energy_challenge (s : GameState) (name : String)
    (inputs : Nat → String) (rands : Nat → RPS) (dial fuel : Nat)
    (opp : CreatureRef)
    (hcur : s.currentId < s.pymons.length)
    (hfind : findOpponent s name = some opp)
    (hself : opp ≠ CreatureRef.pymon s.currentId)
    (hadopt : refAdoptable s opp = true)
    (hen : (curPymon s).energy = 0) :
    ∃ s' res,
      Challenge s name inputs rands dial fuel = some (s', res) ∧
      (curPymon s').battle_stats =
        addBattle (curPymon s).battle_stats (curPymon s).nickname
          ⟨refNickname s opp, 0, 0, 0⟩ ∧
      recCount ((curPymon s').battle_stats) =
        recCount ((curPymon s).battle_stats) + 1 ∧
      ((curPymon s).pets = [] → res = ChRes.gameOver) ∧
      (∀ petId rest, (curPymon s).pets = petId :: rest →
        res = ChRes.lostPromoted
          ((s.pymons.getD petId dfltPymon).nickname)) := by
  have hnl : ¬ live (⟨0, 0, 0, (curPymon s).energy, 0, 0⟩ : LoopSt) := by
    intro hcontra
    have h3 : (0 : Int) < (curPymon s).energy := hcontra.2.2
    rw [hen] at h3
    exact lt_irrefl 0 h3
  have hbl := battleLoop_not_live inputs rands _ hnl fuel
  obtain ⟨s', res, hch, _, _, _, hbs, _, hbrG, hbrH⟩ :=
    Challenge_battle_char s name inputs rands dial fuel opp
      ⟨0, 0, 0, (curPymon s).energy, 0, 0⟩ hcur hfind hself hadopt hbl
  refine ⟨s', res, hch, hbs, ?_, hbrG (show (0:Nat) < 2 by omega), ?_⟩
  · rw [hbs]
    exact addBattle_recCount _ _ _
  · intro petId rest hp
    exact (hbrH (show (0:Nat) < 2 by omega) petId rest hp).1

/-- C10 witnessed: Kimimon at 0 energy challenges the sheep with one pet on
the bench; the record (0, 0, 0) is appended and Buddy's promotion branch is
reported. -/
theorem C10_zero_energy_challenge_witness :
    ∃ s' res,
      Challenge exChW0 "Sheep" constRock constPaperR 0 0 = some (s', res) ∧
      (curPymon s').battle_stats =
        addBattle (curPymon exChW0).battle_stats (curPymon exChW0).nickname
          ⟨refNickname exChW0 (CreatureRef.wild 0), 0, 0, 0⟩ ∧
      recCount ((curPymon s').battle_stats) =
        recCount ((curPymon exChW0).battle_stats) + 1 ∧
      ((curPymon exChW0).pets = [] → res = ChRes.gameOver) ∧
      (∀ petId rest, (curPymon exChW0).pets = petId :: rest →
        res = ChRes.lostPromoted
          ((exChW0.pymons.getD petId dfltPymon).nickname)) :=
  C10_zero_energy_challenge exChW0 "Sheep" constRock constPaperR 0 0
    (CreatureRef.wild 0) (by decide) (by decide) (by decide) (by decide)
    (by decide)

/-! ## Claim C3 — the match-loss branch never promotes the pet -/

/-- C3, evaluated at the failing input: Kimimon (active id 0, carrying one
item, with pet Buddy = pymon 1 benched) loses the match against the sheep.
The code pops Buddy, hands him the whole inventory and *prints* that he "is
now your primary Pymon" (`ChRes.lostPromoted "Buddy"`), but the session's
active Pymon is still id 0 — Kimimon — with an emptied bench and inventory;
only Kimimon's `current_location` was changed to Buddy's.  The popped pet —
now holding the transferred inventory — is referenced by nothing the active
Pymon owns. -/
theorem C3_loss_keeps_loser_active :
    (Challenge exChW "Sheep" constRock constPaperR 0 5).map
        (fun r => r.2) = some (ChRes.lostPromoted "Buddy") ∧
    (Challenge exChW "Sheep" constRock constPaperR 0 5).map
        (fun r => (r.1.currentId, (curPymon r.1).nickname)) =
      some (0, "Kimimon") ∧
    (Challenge exChW "Sheep" constRock constPaperR 0 5).map
        (fun r => ((curPymon r.1).pets, (curPymon r.1).inventory)) =
      some ([], []) ∧
    (Challenge exChW "Sheep" constRock constPaperR 0 5).map
        (fun r => (curPymon r.1).current_location) = some (some 1) ∧
    (Challenge exChW "Sheep" constRock constPaperR 0 5).map
        (fun r => (r.1.pymons.getD 1 dfltPymon).inventory) =
      some [exApple] := by
  refine ⟨by decide, by decide, by decide, by decide, by decide⟩

/-! ## Claim C4 — forced relocation on energy 0 -/

/-- C4, evaluated at the failing input: Kimimon moves east on an odd counter
with 1 energy left; the move succeeds, energy hits 0, and the forced
relocation — `random.choice` over `doors.values()` — raises `TypeError`
even though the new location has exactly one non-`None` neighbor.  The
Pymon is left sitting in the creature list of the room it walked into; no
random relocation ever happens. -/
theorem C4_forced_relocation_raises :
    (move exEscapeState "east").2 = MoveRes.escapeError ∧
    random_escape (move exEscapeState "east").1 =
      Except.error "TypeError: dict_values object is not subscriptable" ∧
    ((curLoc (move exEscapeState "east").1).doors.filter
      (fun e => e.2.isSome)).length = 1 ∧
    ((move exEscapeState "east").1.locations.getD 1 dfltLoc).creatures =
      [CreatureRef.pymon 0] ∧
    (curPymon (move exEscapeState "east").1).current_location = some 1 ∧
    (curPymon (move exEscapeState "east").1).energy = 0 := by
  refine ⟨by decide, random_escape_eq _, by decide, by decide, by decide,
    by decide⟩

/-! ## Claim C8 — manual bench switching -/

/-- `list.pop` at a non-negative in-range index pops exactly that element. -/
theorem pyPop_nonneg {α : Type} (l : List α) (k : Int) (h0 : 0 ≤ k)
    (h1 : k < l.length) :
    ∃ a, l.get? k.toNat = some a ∧
      pyPop l k = some (a, l.eraseIdx k.toNat) := by
  have hk : k.toNat < l.length := by omega
  obtain ⟨a, ha⟩ : ∃ a, l.get? k.toNat = some a :=
    ⟨l.get ⟨k.toNat, hk⟩, List.get?_eq_get hk⟩
  refine ⟨a, ha, ?_⟩
  unfold pyPop
  dsimp only
  rw [if_neg (show ¬ k < 0 by omega), if_pos ⟨h0, h1⟩, ha]

/-- `list.pop` at a negative index counts from the end, Python-style. -/
theorem pyPop_negIdx {α : Type} (l : List α) (k : Int)
    (h0 : 0 ≤ k + l.length) (h1 : k < 0) :
    ∃ a, l.get? (k + l.length).toNat = some a ∧
      pyPop l k = some (a, l.eraseIdx (k + l.length).toNat) := by
  have hk : (k + l.length).toNat < l.length := by omega
  obtain ⟨a, ha⟩ : ∃ a, l.get? (k + (l.length : Int)).toNat = some a :=
    ⟨l.get ⟨_, hk⟩, List.get?_eq_get hk⟩
  refine ⟨a, ha, ?_⟩
  unfold pyPop
  dsimp only
  rw [if_pos h1, if_pos ⟨h0, by omega⟩, ha]

/-- `list.pop` outside `[-len, len)` raises `IndexError`. -/
theorem pyPop_none {α : Type} (l : List α) (k : Int)
    (h : (l.length : Int) ≤ k ∨ k + l.length < 0) :
    pyPop l k = none := by
  unfold pyPop
  dsimp only
  by_cases hneg : k < 0
  · rw [if_pos hneg, if_neg (by omega)]
  · rw [if_neg hneg, if_neg (by omega)]

/-- C8 counterexample: `-1` is not a valid 1-based selection (the valid ones
are 1 and 2, 0 cancels), yet `select_benched_pymon` accepts it through
Python negative indexing — `pets.pop(-2)` — switches to pet `A` and mutates
the state instead of failing with a validation error. -/
theorem C8_counterexample :
    (select_benched_pymon exSelW (some (-1))).2 = SelRes.switched "A" ∧
    (select_benched_pymon exSelW (some (-1))).1.currentId = 1 ∧
    (select_benched_pymon exSelW (some (-1))).1 ≠ exSelW := by
  refine ⟨by decide, by decide, by decide⟩

/-- C8 amended: with a non-empty bench, a valid 1-based index pops the
chosen pet from the *old* active Pymon's pet list, appends the old active
Pymon to that same list, and makes the chosen pet active (the session bench
is now the chosen pet's own pet list); 0 cancels; a non-integer input and an
index above the bench size (or below `-len`) fail with a validation error
and no state change; but an index `u` with `1 - len ≤ u ≤ -1` is accepted
via Python negative indexing (`pets.pop(u - 1)` = element `u - 1 + len`) and
mutates state without any error. -/
theorem C8_select_benched_amended (s : GameState)
    (hne : (curPymon s).pets ≠ []) :
    (∀ u : Int, 1 ≤ u → u ≤ (curPymon s).pets.length →
      ∃ selId, (curPymon s).pets.get? (u - 1).toNat = some selId ∧
        select_benched_pymon s (some u) =
          ({ s with
             pymons := s.pymons.set s.currentId
               ({ curPymon s with pets :=
                   (curPymon s).pets.eraseIdx (u - 1).toNat ++
                     [s.currentId] }),
             currentId := selId },
           SelRes.switched ((s.pymons.getD selId dfltPymon).nickname))) ∧
    select_benched_pymon s (some 0) = (s, SelRes.cancelled) ∧
    select_benched_pymon s none = (s, SelRes.invalidSelection) ∧
    (∀ u : Int, ((curPymon s).pets.length : Int) < u ∨
        u < 1 - ((curPymon s).pets.length : Int) →
      select_benched_pymon s (some u) = (s, SelRes.invalidSelection)) ∧
    (∀ u : Int, 1 - ((curPymon s).pets.length : Int) ≤ u → u ≤ -1 →
      ∃ selId,
        (curPymon s).pets.get? (u - 1 + (curPymon s).pets.length).toNat =
          some selId ∧
        (select_benched_pymon s (some u)).2 =
          SelRes.switched ((s.pymons.getD selId dfltPymon).nickname)) := by
  refine ⟨?_, ?_, ?_, ?_, ?_⟩
  · intro u h1 h2
    obtain ⟨a, hget, hpop⟩ :=
      pyPop_nonneg (curPymon s).pets (u - 1) (by omega) (by omega)
    refine ⟨a, hget, ?_⟩
    simp only [select_benched_pymon]
    rw [if_neg hne, if_neg (show ¬ u = 0 by omega)]
    simp only [hpop]
  · simp only [select_benched_pymon]
    rw [if_neg hne, if_pos trivial]
  · simp only [select_benched_pymon]
    rw [if_neg hne]
  · intro u hu
    have hlen : 0 < (curPymon s).pets.length := List.length_pos.mpr hne
    have hp := pyPop_none (curPymon s).pets (u - 1) (by omega)
    simp only [select_benched_pymon]
    rw [if_neg hne, if_neg (show ¬ u = 0 by omega)]
    simp only [hp]
  · intro u h1 h2
    obtain ⟨a, hget, hpop⟩ :=
      pyPop_negIdx (curPymon s).pets (u - 1) (by omega) (by omega)
    refine ⟨a, hget, ?_⟩
    simp only [select_benched_pymon]
    rw [if_neg hne, if_neg (show ¬ u = 0 by omega)]
    simp only [hpop]

/-- C8 amended, witnessed: index 0 cancels and index 5 (bench of two) fails
with a validation error and no state change. -/
theorem C8_select_benched_amended_witness :
    select_benched_pymon exSelW (some 0) = (exSelW, SelRes.cancelled) ∧
    select_benched_pymon exSelW (some 5) = (exSelW, SelRes.invalidSelection) :=
  ⟨(C8_select_benched_amended exSelW (by decide)).2.1,
   (C8_select_benched_amended exSelW (by decide)).2.2.2.1 5
     (Or.inl (by decide))⟩

/-- One `move` keeps the active id and heap size and never increases the
active Pymon's energy. -/
theorem move_le (s : GameState) (d : String)
    (hcur : s.currentId < s.pymons.length) :
    (move s d).1.currentId = s.currentId ∧
    s.pymons.length ≤ (move s d).1.pymons.length ∧
    (curPymon (move s d).1).energy ≤ (curPymon s).energy := by
  rcases move_char s d with (h | h) | ⟨lid, nid, _, h⟩
  · rw [h]
    exact ⟨rfl, le_refl _, le_refl _⟩
  · rw [h]
    exact ⟨rfl, le_refl _, le_refl _⟩
  · obtain ⟨_, hid, hlen, _, hen⟩ := moveSuccess_fields s lid nid hcur
    rw [h]
    refine ⟨hid, le_of_eq hlen.symm, ?_⟩
    rw [hen]
    split_ifs <;> omega

/-- Along any returning run of moves and challenges, the active id is
stable, the pymon heap never shrinks, and the active Pymon's energy never
increases. -/
theorem runOps_energy_le :
    ∀ (ops : List GOp) (s s' : GameState),
      s.currentId < s.pymons.length → runOps s ops = some s' →
      s'.currentId = s.currentId ∧ s.pymons.length ≤ s'.pymons.length ∧
      (curPymon s').energy ≤ (curPymon s).energy := by
  intro ops
  induction ops with
  | nil =>
    intro s s' hcur h
    simp only [runOps, Option.some.injEq] at h
    subst h
    exact ⟨rfl, le_refl _, le_refl _⟩
  | cons op rest ih =>
    intro s s' hcur h
    cases op with
    | mv d =>
      simp only [runOps] at h
      obtain ⟨hid, hlen, hen⟩ := move_le s d hcur
      obtain ⟨ih1, ih2, ih3⟩ := ih (move s d).1 s'
        (by rw [hid]; exact lt_of_lt_of_le hcur hlen) h
      exact ⟨ih1.trans hid, le_trans hlen ih2, le_trans ih3 hen⟩
    | ch n inputs rands dial fuel =>
      simp only [runOps] at h
      rcases hc : Challenge s n inputs rands dial fuel with _ | pr
      · rw [hc] at h
        exact Option.noConfusion h
      · rw [hc] at h
        obtain ⟨hid, hlen, hen⟩ :=
          Challenge_some_le s n inputs rands dial fuel pr.1 pr.2 hcur
            (by rw [hc])
        obtain ⟨ih1, ih2, ih3⟩ := ih pr.1 s'
          (by rw [hid]; exact lt_of_lt_of_le hcur hlen) h
        exact ⟨ih1.trans hid, le_trans hlen ih2, le_trans ih3 hen⟩

/-- C2 amended: after any returning sequence of move and challenge
operations, the active Pymon's energy never exceeds 3 (indeed it never
increases); the lower bound 0 of the claim does not survive — see the
counterexample — because the forced relocation at energy 0 raises an
uncaught `TypeError` and later moves keep decrementing. -/
theorem C2_energy_bound_amended (s : GameState) (ops : List GOp)
    (s' : GameState) (hcur : s.currentId < s.pymons.length)
    (h3 : (curPymon s).energy ≤ 3)
    (hrun : runOps s ops = some s') :
    (curPymon s').energy ≤ 3 ∧
    (curPymon s').energy ≤ (curPymon s).energy := by
  obtain ⟨_, _, hen⟩ := runOps_energy_le ops s s' hcur hrun
  exact ⟨le_trans hen h3, hen⟩

/-- C2 amended, witnessed on a single successful move. -/
theorem C2_energy_bound_amended_witness :
    (curPymon (move exMoveState "east").1).energy ≤ 3 ∧
    (curPymon (move exMoveState "east").1).energy ≤
      (curPymon exMoveState).energy :=
  C2_energy_bound_amended exMoveState [GOp.mv "east"]
    (move exMoveState "east").1 (by decide) (by decide) rfl
